import Mathlib

/-!
Verification of the TinyBase CLI and extension subsystem.

Shallow embedding of `src/tinybase/cli.py` and
`src/tinybase/extensions/hooks.py`.  Pure helpers become Lean functions;
the stateful commands become explicit state-passing functions: the target
functions file is an `Option String` (none = missing file), the database
tables are lists of records, and each command returns the new state
together with its exit code and echoed messages.  Parts of the repository
that the CLI calls but that are not part of the four source files
(`tinybase.auth.hash_password`, `tinybase.db.models`,
`tinybase.extensions.installer.uninstall_extension`, `tinybase.config`)
are modelled from the specification and marked as such.
-/

/-- Embedding of `re.match(r"^[a-z][a-z0-9_]*$", ...)`: ASCII lowercase test
for the first character (`cli.py` line 409). -/
def isAsciiLowerChar (c : Char) : Bool :=
  Char.ofNat 97 ≤ c && c ≤ Char.ofNat 122

/-- A character allowed after the first one by the pattern `[a-z0-9_]`. -/
def isNameTailChar (c : Char) : Bool :=
  isAsciiLowerChar c || (Char.ofNat 48 ≤ c && c ≤ Char.ofNat 57) || c == Char.ofNat 95

/-- Tail of the match: zero or more `[a-z0-9_]` characters followed by the
Python `$` anchor, which accepts the end of the string or a single final
newline character. -/
def nameTailMatch : List Char → Bool
  | [] => true
  | [c] => isNameTailChar c || c == Char.ofNat 10
  | c :: rest => isNameTailChar c && nameTailMatch rest

/-- Embedding of the name validation `re.match(r"^[a-z][a-z0-9_]*$", name)`
in `functions_new` (`cli.py` line 409), with Python `re` semantics: the
first character must be an ASCII lowercase letter, the rest must be
`[a-z0-9_]`, and `$` also matches just before one trailing newline. -/
def pyNameMatch (name : String) : Bool :=
  match name.data with
  | [] => false
  | c :: rest => isAsciiLowerChar c && nameTailMatch rest

/-- Embedding of Python `str.capitalize()`: first character uppercased,
remaining characters lowercased (ASCII model, the only characters that
reach this helper are `[a-z0-9_]`). -/
def pyCapitalize (s : String) : String :=
  match s.data with
  | [] => ""
  | c :: rest => String.mk (c.toUpper :: rest.map Char.toLower)

/-- Embedding of `snake_to_camel` (`cli.py` lines 63-65):
`"".join(word.capitalize() for word in name.split("_"))`. -/
def snake_to_camel (name : String) : String :=
  String.join ((name.splitOn "_").map pyCapitalize)

/-- Embedding of Python's substring test `pat in content` used by the
duplicate check of `functions_new` (`cli.py` line 424): `pat` occurs as a
contiguous substring of `hay`. -/
def strContains (hay pat : String) : Bool :=
  decide (pat.data <:+: hay.data)

/-- The 77-character `=` separator of the template's comment banners. -/
def eqSep : String :=
  String.mk (List.replicate 77 (Char.ofNat 61))

/-- Embedding of `create_function_boilerplate` (`cli.py` lines 192-230):
the f-string template appended for a new function, with the two
interpolated class names built from `snake_to_camel name` (the `=` banner
lines are assembled from `eqSep`; the string value is byte-identical to
the source template). -/
def create_function_boilerplate (name description : String) : String :=
  let camel_name := snake_to_camel name
  "\n\n# " ++ eqSep ++ "\n# Function: "
    ++ name
    ++ "\n# " ++ eqSep ++ "\n\n\n"
    ++ "class " ++ camel_name ++ "Input(BaseModel):"
    ++ "\n    \"\"\"Input model for " ++ name
    ++ " function.\"\"\"\n    # TODO: Define input fields\n    pass\n\n\n"
    ++ "class " ++ camel_name ++ "Output(BaseModel):"
    ++ "\n    \"\"\"Output model for " ++ name
    ++ " function.\"\"\"\n    # TODO: Define output fields\n    pass\n\n\n@register(\n    "
    ++ "name=\"" ++ name ++ "\""
    ++ ",\n    description=\"" ++ description
    ++ "\",\n    auth=\"auth\",\n    input_model=" ++ camel_name
    ++ "Input,\n    output_model=" ++ camel_name
    ++ "Output,\n    tags=[],\n)\ndef " ++ name
    ++ "(ctx: Context, payload: " ++ camel_name
    ++ "Input) -> " ++ camel_name
    ++ "Output:\n    \"\"\"\n    " ++ description
    ++ "\n    \n    TODO: Implement function logic\n    \"\"\"\n    return " ++ camel_name
    ++ "Output()\n"

/-- Result of one run of `functions new`: the functions file afterwards
(byte-for-byte; `none` = the file does not exist) and the exit code. -/
structure FnNewResult where
  file : Option String
  exitCode : Nat
  deriving Repr, DecidableEq

/-- Embedding of `functions_new` (`cli.py` lines 388-436).  The file
argument is the current content of the target functions file (`none` when
it is missing).  The command validates the name, requires the file to
exist, rejects as a duplicate any file whose text contains the substring
`name="<name>"`, and otherwise appends the boilerplate. -/
def functions_new (name description : String) (file : Option String) : FnNewResult :=
  if !pyNameMatch name then
    ⟨file, 1⟩
  else
    match file with
    | none => ⟨none, 1⟩
    | some content =>
      if strContains content ("name=\"" ++ name ++ "\"") then
        ⟨some content, 1⟩
      else
        ⟨some (content ++ create_function_boilerplate name description), 0⟩

/-- Embedding of `functions_deploy` (`cli.py` lines 438-461): echoes the
guidance lines and raises `typer.Exit(1)` unconditionally.  Result is the
exit code and the echoed output. -/
def functions_deploy (env : String) : Nat × List String :=
  (1,
    ["Deploying functions to environment: " ++ env,
     "",
     "Note: Remote deployment is not yet implemented.",
     "For now, deploy your functions manually by copying them to the server."])

/-- Modelled from the spec: `tinybase.config.Settings` is not among the
available source files; section 4.1 of the spec gives the `[server]`
fields.  Only the fields read by `serve` are included. -/
structure Settings where
  server_host : String
  server_port : Nat
  log_level : String
  deriving Repr, DecidableEq

/-- Embedding of Python `x or default` on an optional string option:
`None` and the empty string are falsy. -/
def pyOrString (x : Option String) (dflt : String) : String :=
  match x with
  | none => dflt
  | some s => if s = "" then dflt else s

/-- Embedding of Python `x or default` on an optional integer option:
`None` and `0` are falsy. -/
def pyOrNat (x : Option Nat) (dflt : Nat) : Nat :=
  match x with
  | none => dflt
  | some n => if n = 0 then dflt else n

/-- Embedding of the host/port resolution of `serve` (`cli.py` lines
370-371): `bind_host = host or config.server_host` and
`bind_port = port or config.server_port`; the returned pair is what the
server is started with. -/
def serve (host : Option String) (port : Option Nat) (config : Settings) : String × Nat :=
  (pyOrString host config.server_host, pyOrNat port config.server_port)

/-- Behaviour of one registered hook when called: it either returns
normally (possibly after an awaited result, which `run_*_hooks` awaits
in place) or raises an exception rendered by `str(e)`. -/
inductive HookOutcome where
  | ok : HookOutcome
  | raises : String → HookOutcome
  deriving Repr, DecidableEq

/-- A registered lifecycle hook: its `__name__` and its behaviour when
invoked (`hooks.py`). -/
structure Hook where
  name : String
  outcome : HookOutcome
  deriving Repr, DecidableEq

/-- Observable events of a hook-runner execution: a hook being invoked,
and an error line written to the logger. -/
inductive HookEvent where
  | invoked : String → HookEvent
  | logged : String → HookEvent
  deriving Repr, DecidableEq

/-- Embedding of `on_startup` (`hooks.py` lines 16-31): appends the hook
to the startup registry (the decorator also returns the function
unchanged; only the registry transition is modelled). -/
def on_startup (hooks : List Hook) (f : Hook) : List Hook :=
  hooks ++ [f]

/-- Embedding of `on_shutdown` (`hooks.py` lines 34-49): appends the hook
to the shutdown registry. -/
def on_shutdown (hooks : List Hook) (f : Hook) : List Hook :=
  hooks ++ [f]

/-- One iteration of the loop body of `run_startup_hooks` (`hooks.py`
lines 54-63): the hook is invoked; when it raises, the exception is
caught and logged with the hook's name, and the loop continues. -/
def runHookStartup (h : Hook) : List HookEvent :=
  match h.outcome with
  | HookOutcome.ok => [HookEvent.invoked h.name]
  | HookOutcome.raises e =>
      [HookEvent.invoked h.name,
       HookEvent.logged ("Error in startup hook " ++ h.name ++ ": " ++ e)]

/-- One iteration of the loop body of `run_shutdown_hooks` (`hooks.py`
lines 68-77). -/
def runHookShutdown (h : Hook) : List HookEvent :=
  match h.outcome with
  | HookOutcome.ok => [HookEvent.invoked h.name]
  | HookOutcome.raises e =>
      [HookEvent.invoked h.name,
       HookEvent.logged ("Error in shutdown hook " ++ h.name ++ ": " ++ e)]

/-- Embedding of `run_startup_hooks` (`hooks.py` lines 52-64): runs every
registered hook in registration order; a total function, so the runner
itself never propagates a hook's error. -/
def run_startup_hooks (hooks : List Hook) : List HookEvent :=
  hooks.flatMap runHookStartup

/-- Embedding of `run_shutdown_hooks` (`hooks.py` lines 66-77). -/
def run_shutdown_hooks (hooks : List Hook) : List HookEvent :=
  hooks.flatMap runHookShutdown

/-- The hook names invoked by a runner execution, in order. -/
def invokedNames (events : List HookEvent) : List String :=
  events.filterMap fun e =>
    match e with
    | HookEvent.invoked n => some n
    | HookEvent.logged _ => none

/-- Registering the same hook `n` times through a registration function
(modelling `n` applications of the decorator to the same callable). -/
def registerRepeat (reg : List Hook → Hook → List Hook) (n : Nat)
    (hooks : List Hook) (f : Hook) : List Hook :=
  match n with
  | 0 => hooks
  | Nat.succ m => registerRepeat reg m (reg hooks f) f

/-- `User` row as manipulated by `admin_add`.  Modelled from the spec:
`tinybase.db.models.User` is not among the available source files;
section 3 of the spec lists unique email, password hash and admin flag
(timestamps are not touched by `admin_add` and are omitted). -/
structure User where
  email : String
  password_hash : String
  is_admin : Bool
  deriving Repr, DecidableEq

/-- Modelled from the spec: `tinybase.auth.hash_password` is not among the
available source files; section 4.4 specifies a one-way salted digest
"suitable for storage" that is never the plaintext (section 3).  Modelled
as a tagged digest, distinct from every plaintext. -/
def hash_password (plain : String) : String :=
  "pbkdf2-sha256$" ++ plain

/-- Embedding of `admin_add` (`cli.py` lines 567-613) acting on the
`User` table: the first row whose email matches is updated in place
(new password hash, admin flag forced on); when no row matches, one new
admin row is inserted. -/
def admin_add (db : List User) (email password : String) : List User :=
  match db with
  | [] => [⟨email, hash_password password, true⟩]
  | u :: rest =>
    if u.email == email then
      { u with password_hash := hash_password password, is_admin := true } :: rest
    else
      u :: admin_add rest email password

/-- `Extension` row as manipulated by the `extensions` commands.
Modelled from the spec: `tinybase.db.models.Extension` is not among the
available source files; section 3 lists its fields (timestamps modelled
as natural numbers). -/
structure Extension where
  name : String
  version : String
  description : String
  author : String
  repo_url : String
  is_enabled : Bool
  created_at : Nat
  updated_at : Nat
  deriving Repr, DecidableEq

/-- Result of one `extensions` CLI command: the `Extension` table
afterwards, the exit code, and the echoed messages. -/
structure ExtCmdOut where
  db : List Extension
  exitCode : Nat
  messages : List String
  deriving Repr, DecidableEq

/-- Updates the first row with the given name (the ORM `.first()` result
that the command mutates and commits). -/
def updateFirstNamed (name : String) (f : Extension → Extension) :
    List Extension → List Extension
  | [] => []
  | e :: rest =>
    if e.name == name then f e :: rest else e :: updateFirstNamed name f rest

/-- Embedding of `extensions_enable` (`cli.py` lines 751-792): unknown
name exits 1; an already-enabled extension is reported and the command
returns with no table change; otherwise `is_enabled` and `updated_at`
(set to `utcnow()`, passed here as `now`) are written and committed. -/
def extensions_enable (db : List Extension) (name : String) (now : Nat) : ExtCmdOut :=
  match db.find? (fun e => e.name == name) with
  | none => ⟨db, 1, ["Error: Extension \x27" ++ name ++ "\x27 not found."]⟩
  | some ext =>
    if ext.is_enabled then
      ⟨db, 0, ["Extension \x27" ++ name ++ "\x27 is already enabled."]⟩
    else
      ⟨updateFirstNamed name (fun e => { e with is_enabled := true, updated_at := now }) db,
       0,
       ["✓ Enabled extension: " ++ name, "",
        "Note: Restart the server to load the extension."]⟩

/-- Embedding of `extensions_disable` (`cli.py` lines 794-834),
symmetric to `extensions_enable`. -/
def extensions_disable (db : List Extension) (name : String) (now : Nat) : ExtCmdOut :=
  match db.find? (fun e => e.name == name) with
  | none => ⟨db, 1, ["Error: Extension \x27" ++ name ++ "\x27 not found."]⟩
  | some ext =>
    if !ext.is_enabled then
      ⟨db, 0, ["Extension \x27" ++ name ++ "\x27 is already disabled."]⟩
    else
      ⟨updateFirstNamed name (fun e => { e with is_enabled := false, updated_at := now }) db,
       0,
       ["✓ Disabled extension: " ++ name, "",
        "Note: Restart the server to fully unload the extension."]⟩

/-- Modelled from the spec:
`tinybase.extensions.installer.uninstall_extension` is not among the
available source files; section 4.10 specifies that it deletes the
extension's files and database record, returning `false` (not an error)
when the named extension does not exist and `true` on success.  The
database is the `Extension` table; on-disk files are outside the
embedding. -/
def uninstall_extension (db : List Extension) (name : String) : List Extension × Bool :=
  if db.any (fun e => e.name == name) then
    (db.filter (fun e => e.name != name), true)
  else
    (db, false)

/-- Embedding of `extensions_uninstall` (`cli.py` lines 672-708): without
`--yes` a declined confirmation cancels with exit 0; otherwise the command
branches on the boolean returned by `uninstall_extension`, exiting 1 with
an error message when it is `false`. -/
def extensions_uninstall (db : List Extension) (name : String)
    (yes confirmAnswer : Bool) : ExtCmdOut :=
  if !yes && !confirmAnswer then
    ⟨db, 0, ["Uninstallation cancelled."]⟩
  else
    let res := uninstall_extension db name
    if res.2 then
      ⟨res.1, 0,
       ["✓ Uninstalled extension: " ++ name, "",
        "Note: Restart the server to fully unload the extension."]⟩
    else
      ⟨res.1, 1, ["Error: Extension \x27" ++ name ++ "\x27 not found."]⟩

lemma strContains_eq_true {hay pat : String} :
    strContains hay pat = true ↔ pat.data <:+: hay.data := by
  simp [strContains]

lemma strContains_middle (a p b : String) : strContains (a ++ (p ++ b)) p = true := by
  rw [strContains_eq_true]
  exact ⟨a.data, b.data, by simp⟩

/-- C4: a name that fails the `^[a-z][a-z0-9_]*$` validation (for example
one containing an uppercase letter or a hyphen) makes `functions new`
exit with code 1 and leave the target functions file byte-for-byte
unmodified (`pyNameMatch` carries Python `re.match` semantics). -/
theorem functions_new_invalid_name_c4 (name description : String) (file : Option String)
    (hname : pyNameMatch name = false) :
    functions_new name description file = ⟨file, 1⟩ := by
  simp [functions_new, hname]

theorem functions_new_invalid_name_c4_witness :
    pyNameMatch "Add-Numbers" = false ∧
    functions_new "Add-Numbers" "TODO: Add description" (some "# my functions file\n") =
      ⟨some "# my functions file\n", 1⟩ :=
  ⟨by decide,
   functions_new_invalid_name_c4 "Add-Numbers" "TODO: Add description"
     (some "# my functions file\n") (by decide)⟩

/-- C7: `functions deploy` exits with status code 1 for every value of the
`--env` option, after printing the guidance lines; it is a total function
of the option, so it neither succeeds nor crashes. -/
theorem functions_deploy_always_exit1_c7 (env : String) :
    functions_deploy env =
      (1,
        ["Deploying functions to environment: " ++ env,
         "",
         "Note: Remote deployment is not yet implemented.",
         "For now, deploy your functions manually by copying them to the server."]) :=
  rfl

/-- C8: the duplicate check of `functions new` is a plain substring search
for `name="<name>"` over the whole file text: any file containing that
substring anywhere (a comment or docstring included) makes the command
exit with code 1 and leave the file unmodified. -/
theorem functions_new_substring_duplicate_c8 (name description content : String)
    (hname : pyNameMatch name = true)
    (hdup : strContains content ("name=\"" ++ name ++ "\"") = true) :
    functions_new name description (some content) = ⟨some content, 1⟩ := by
  simp [functions_new, hname, hdup]

theorem functions_new_substring_duplicate_c8_witness :
    pyNameMatch "ping" = true ∧
    strContains "# commented out: name=\"ping\" is not a registration\n" "name=\"ping\"" = true ∧
    functions_new "ping" "TODO: Add description"
      (some "# commented out: name=\"ping\" is not a registration\n") =
      ⟨some "# commented out: name=\"ping\" is not a registration\n", 1⟩ :=
  ⟨by decide, by decide,
   functions_new_substring_duplicate_c8 "ping" "TODO: Add description"
     "# commented out: name=\"ping\" is not a registration\n" (by decide) (by decide)⟩

/-- C9: `serve` prefers the CLI host/port only when the value is truthy:
`--port 0` and `--host ""` fall back to the configured values because the
resolution is Python `or`, not a comparison against `None`; truthy CLI
values win, and absent options fall back as well. -/
theorem serve_falsy_fallback_c9 (config : Settings) (h : String) (p : Nat)
    (hh : h ≠ "") (hp : p ≠ 0) :
    serve (some "") (some 0) config = (config.server_host, config.server_port) ∧
    serve (some h) (some p) config = (h, p) ∧
    serve none none config = (config.server_host, config.server_port) := by
  refine ⟨rfl, ?_, rfl⟩
  simp [serve, pyOrString, pyOrNat, hh, hp]

theorem serve_falsy_fallback_c9_witness :
    ("0.0.0.0" : String) ≠ "" ∧ (3000 : Nat) ≠ 0 ∧
    (serve (some "") (some 0) ⟨"127.0.0.1", 8000, "info"⟩ = ("127.0.0.1", 8000) ∧
     serve (some "0.0.0.0") (some 3000) ⟨"127.0.0.1", 8000, "info"⟩ = ("0.0.0.0", 3000) ∧
     serve none none ⟨"127.0.0.1", 8000, "info"⟩ = ("127.0.0.1", 8000)) :=
  ⟨by decide, by decide,
   serve_falsy_fallback_c9 ⟨"127.0.0.1", 8000, "info"⟩ "0.0.0.0" 3000 (by decide) (by decide)⟩

/-- The header chunk of the boilerplate, up to the first class. -/
def bpHeader (name : String) : String :=
  "\n\n# " ++ eqSep ++ "\n# Function: "
    ++ name
    ++ "\n# " ++ eqSep ++ "\n\n\n"

/-- The chunk between the input class line and the output class line. -/
def bpInputBody (name : String) : String :=
  "\n    \"\"\"Input model for " ++ name
    ++ " function.\"\"\"\n    # TODO: Define input fields\n    pass\n\n\n"

/-- The chunk between the output class line and the `name="..."` keyword
argument of the `@register` call. -/
def bpOutputBody (name : String) : String :=
  "\n    \"\"\"Output model for " ++ name
    ++ " function.\"\"\"\n    # TODO: Define output fields\n    pass\n\n\n@register(\n    "

/-- The chunk after the `name="..."` keyword argument. -/
def bpTail (name description : String) : String :=
  ",\n    description=\"" ++ description
    ++ "\",\n    auth=\"auth\",\n    input_model=" ++ snake_to_camel name
    ++ "Input,\n    output_model=" ++ snake_to_camel name
    ++ "Output,\n    tags=[],\n)\ndef " ++ name
    ++ "(ctx: Context, payload: " ++ snake_to_camel name
    ++ "Input) -> " ++ snake_to_camel name
    ++ "Output:\n    \"\"\"\n    " ++ description
    ++ "\n    \n    TODO: Implement function logic\n    \"\"\"\n    return " ++ snake_to_camel name
    ++ "Output()\n"

set_option maxRecDepth 10000 in
lemma bp_has_input_class (name description : String) :
    strContains (create_function_boilerplate name description)
      ("class " ++ snake_to_camel name ++ "Input(BaseModel):") = true := by
  have hsplit : create_function_boilerplate name description =
      bpHeader name ++
        (("class " ++ snake_to_camel name ++ "Input(BaseModel):") ++
          (bpInputBody name
            ++ ("class " ++ snake_to_camel name ++ "Output(BaseModel):")
            ++ bpOutputBody name
            ++ ("name=\"" ++ name ++ "\"")
            ++ bpTail name description)) := by
    apply String.ext
    simp [create_function_boilerplate, bpHeader, bpInputBody, bpOutputBody, bpTail]
  rw [hsplit]
  exact strContains_middle _ _ _

set_option maxRecDepth 10000 in
lemma bp_has_output_class (name description : String) :
    strContains (create_function_boilerplate name description)
      ("class " ++ snake_to_camel name ++ "Output(BaseModel):") = true := by
  have hsplit : create_function_boilerplate name description =
      (bpHeader name
          ++ ("class " ++ snake_to_camel name ++ "Input(BaseModel):")
          ++ bpInputBody name) ++
        (("class " ++ snake_to_camel name ++ "Output(BaseModel):") ++
          (bpOutputBody name
            ++ ("name=\"" ++ name ++ "\"")
            ++ bpTail name description)) := by
    apply String.ext
    simp [create_function_boilerplate, bpHeader, bpInputBody, bpOutputBody, bpTail]
  rw [hsplit]
  exact strContains_middle _ _ _

set_option maxRecDepth 10000 in
lemma appended_bp_has_name_key (name description content : String) :
    strContains (content ++ create_function_boilerplate name description)
      ("name=\"" ++ name ++ "\"") = true := by
  have hsplit : content ++ create_function_boilerplate name description =
      (content
          ++ bpHeader name
          ++ ("class " ++ snake_to_camel name ++ "Input(BaseModel):")
          ++ bpInputBody name
          ++ ("class " ++ snake_to_camel name ++ "Output(BaseModel):")
          ++ bpOutputBody name) ++
        (("name=\"" ++ name ++ "\"") ++ bpTail name description) := by
    apply String.ext
    simp [create_function_boilerplate, bpHeader, bpInputBody, bpOutputBody, bpTail]
  rw [hsplit]
  exact strContains_middle _ _ _

/-- C1: for a validated name not yet occurring as `name="<name>"` in the
file, `functions new` succeeds and the new file is the old content plus
exactly one boilerplate block; the block declares the two classes
`<CamelCase>Input(BaseModel)` and `<CamelCase>Output(BaseModel)` built by
`snake_to_camel`; and a second run of the same command on the resulting
file exits with code 1 and appends nothing. -/
theorem functions_new_fresh_then_duplicate_c1 (name description content : String)
    (hname : pyNameMatch name = true)
    (hfresh : strContains content ("name=\"" ++ name ++ "\"") = false) :
    functions_new name description (some content) =
      ⟨some (content ++ create_function_boilerplate name description), 0⟩ ∧
    strContains (create_function_boilerplate name description)
      ("class " ++ snake_to_camel name ++ "Input(BaseModel):") = true ∧
    strContains (create_function_boilerplate name description)
      ("class " ++ snake_to_camel name ++ "Output(BaseModel):") = true ∧
    functions_new name description
      (some (content ++ create_function_boilerplate name description)) =
      ⟨some (content ++ create_function_boilerplate name description), 1⟩ := by
  refine ⟨by simp [functions_new, hname, hfresh],
          bp_has_input_class name description,
          bp_has_output_class name description, ?_⟩
  simp [functions_new, hname, appended_bp_has_name_key name description content]

theorem functions_new_fresh_then_duplicate_c1_witness :
    pyNameMatch "send_email" = true ∧
    strContains "# my functions\n" ("name=\"" ++ "send_email" ++ "\"") = false ∧
    (functions_new "send_email" "Send an email" (some "# my functions\n") =
      ⟨some ("# my functions\n" ++ create_function_boilerplate "send_email" "Send an email"), 0⟩ ∧
    strContains (create_function_boilerplate "send_email" "Send an email")
      ("class " ++ snake_to_camel "send_email" ++ "Input(BaseModel):") = true ∧
    strContains (create_function_boilerplate "send_email" "Send an email")
      ("class " ++ snake_to_camel "send_email" ++ "Output(BaseModel):") = true ∧
    functions_new "send_email" "Send an email"
      (some ("# my functions\n" ++ create_function_boilerplate "send_email" "Send an email")) =
      ⟨some ("# my functions\n" ++ create_function_boilerplate "send_email" "Send an email"), 1⟩) :=
  ⟨by decide, by decide,
   functions_new_fresh_then_duplicate_c1 "send_email" "Send an email" "# my functions\n"
     (by decide) (by decide)⟩

lemma invokedNames_append (a b : List HookEvent) :
    invokedNames (a ++ b) = invokedNames a ++ invokedNames b := by
  simp [invokedNames]

lemma invokedNames_runHookStartup (h : Hook) :
    invokedNames (runHookStartup h) = [h.name] := by
  cases hout : h.outcome <;> simp [runHookStartup, hout, invokedNames]

lemma invokedNames_runHookShutdown (h : Hook) :
    invokedNames (runHookShutdown h) = [h.name] := by
  cases hout : h.outcome <;> simp [runHookShutdown, hout, invokedNames]

lemma run_startup_hooks_cons (h : Hook) (rest : List Hook) :
    run_startup_hooks (h :: rest) = runHookStartup h ++ run_startup_hooks rest := by
  simp [run_startup_hooks]

lemma run_shutdown_hooks_cons (h : Hook) (rest : List Hook) :
    run_shutdown_hooks (h :: rest) = runHookShutdown h ++ run_shutdown_hooks rest := by
  simp [run_shutdown_hooks]

lemma run_startup_hooks_names (hooks : List Hook) :
    invokedNames (run_startup_hooks hooks) = hooks.map Hook.name := by
  induction hooks with
  | nil => simp [run_startup_hooks, invokedNames]
  | cons h rest ih =>
    rw [run_startup_hooks_cons, invokedNames_append, invokedNames_runHookStartup, ih]
    simp

lemma run_shutdown_hooks_names (hooks : List Hook) :
    invokedNames (run_shutdown_hooks hooks) = hooks.map Hook.name := by
  induction hooks with
  | nil => simp [run_shutdown_hooks, invokedNames]
  | cons h rest ih =>
    rw [run_shutdown_hooks_cons, invokedNames_append, invokedNames_runHookShutdown, ih]
    simp

lemma run_startup_hooks_logs (hooks : List Hook) (h : Hook) (e : String)
    (hm : h ∈ hooks) (ho : h.outcome = HookOutcome.raises e) :
    HookEvent.logged ("Error in startup hook " ++ h.name ++ ": " ++ e) ∈
      run_startup_hooks hooks := by
  induction hooks with
  | nil => cases hm
  | cons a rest ih =>
    rw [run_startup_hooks_cons]
    rcases List.mem_cons.mp hm with rfl | hmem
    · simp [runHookStartup, ho]
    · exact List.mem_append_right _ (ih hmem)

lemma run_shutdown_hooks_logs (hooks : List Hook) (h : Hook) (e : String)
    (hm : h ∈ hooks) (ho : h.outcome = HookOutcome.raises e) :
    HookEvent.logged ("Error in shutdown hook " ++ h.name ++ ": " ++ e) ∈
      run_shutdown_hooks hooks := by
  induction hooks with
  | nil => cases hm
  | cons a rest ih =>
    rw [run_shutdown_hooks_cons]
    rcases List.mem_cons.mp hm with rfl | hmem
    · simp [runHookShutdown, ho]
    · exact List.mem_append_right _ (ih hmem)

/-- C2: both runners invoke every registered hook exactly once, in
registration order (the invoked-name trace equals the registry's name
list, so a raising hook never prevents a later hook from running); every
raising hook has its error caught and logged with the hook's name; and
the runners are total functions of the registry, completing without
propagating any hook's error. -/
theorem hook_runners_c2 (startup shutdown : List Hook) (h₁ h₂ : Hook) (e₁ e₂ : String)
    (hm₁ : h₁ ∈ startup) (ho₁ : h₁.outcome = HookOutcome.raises e₁)
    (hm₂ : h₂ ∈ shutdown) (ho₂ : h₂.outcome = HookOutcome.raises e₂) :
    invokedNames (run_startup_hooks startup) = startup.map Hook.name ∧
    HookEvent.logged ("Error in startup hook " ++ h₁.name ++ ": " ++ e₁) ∈
      run_startup_hooks startup ∧
    invokedNames (run_shutdown_hooks shutdown) = shutdown.map Hook.name ∧
    HookEvent.logged ("Error in shutdown hook " ++ h₂.name ++ ": " ++ e₂) ∈
      run_shutdown_hooks shutdown :=
  ⟨run_startup_hooks_names startup,
   run_startup_hooks_logs startup h₁ e₁ hm₁ ho₁,
   run_shutdown_hooks_names shutdown,
   run_shutdown_hooks_logs shutdown h₂ e₂ hm₂ ho₂⟩

theorem hook_runners_c2_witness :
    (⟨"bad_hook", HookOutcome.raises "boom"⟩ : Hook) ∈
      [(⟨"init_cache", HookOutcome.ok⟩ : Hook),
       ⟨"bad_hook", HookOutcome.raises "boom"⟩,
       ⟨"warm_up", HookOutcome.ok⟩] ∧
    (⟨"bad_hook", HookOutcome.raises "boom"⟩ : Hook).outcome = HookOutcome.raises "boom" ∧
    (⟨"close_db", HookOutcome.raises "oops"⟩ : Hook) ∈
      [(⟨"close_db", HookOutcome.raises "oops"⟩ : Hook), ⟨"flush_logs", HookOutcome.ok⟩] ∧
    (⟨"close_db", HookOutcome.raises "oops"⟩ : Hook).outcome = HookOutcome.raises "oops" ∧
    (invokedNames (run_startup_hooks
        [⟨"init_cache", HookOutcome.ok⟩,
         ⟨"bad_hook", HookOutcome.raises "boom"⟩,
         ⟨"warm_up", HookOutcome.ok⟩]) =
      List.map Hook.name
        [⟨"init_cache", HookOutcome.ok⟩,
         ⟨"bad_hook", HookOutcome.raises "boom"⟩,
         ⟨"warm_up", HookOutcome.ok⟩] ∧
     HookEvent.logged ("Error in startup hook " ++ "bad_hook" ++ ": " ++ "boom") ∈
       run_startup_hooks
         [⟨"init_cache", HookOutcome.ok⟩,
          ⟨"bad_hook", HookOutcome.raises "boom"⟩,
          ⟨"warm_up", HookOutcome.ok⟩] ∧
     invokedNames (run_shutdown_hooks
        [⟨"close_db", HookOutcome.raises "oops"⟩, ⟨"flush_logs", HookOutcome.ok⟩]) =
      List.map Hook.name
        [⟨"close_db", HookOutcome.raises "oops"⟩, ⟨"flush_logs", HookOutcome.ok⟩] ∧
     HookEvent.logged ("Error in shutdown hook " ++ "close_db" ++ ": " ++ "oops") ∈
       run_shutdown_hooks
         [⟨"close_db", HookOutcome.raises "oops"⟩, ⟨"flush_logs", HookOutcome.ok⟩]) :=
  ⟨by decide, by decide, by decide, by decide,
   hook_runners_c2
     [⟨"init_cache", HookOutcome.ok⟩,
      ⟨"bad_hook", HookOutcome.raises "boom"⟩,
      ⟨"warm_up", HookOutcome.ok⟩]
     [⟨"close_db", HookOutcome.raises "oops"⟩, ⟨"flush_logs", HookOutcome.ok⟩]
     ⟨"bad_hook", HookOutcome.raises "boom"⟩
     ⟨"close_db", HookOutcome.raises "oops"⟩
     "boom" "oops" (by decide) (by decide) (by decide) (by decide)⟩

lemma registerRepeat_append (reg : List Hook → Hook → List Hook)
    (hreg : ∀ hs g, reg hs g = hs ++ [g]) (n : Nat) (hooks : List Hook) (f : Hook) :
    registerRepeat reg n hooks f = hooks ++ List.replicate n f := by
  induction n generalizing hooks with
  | zero => simp [registerRepeat]
  | succ m ih =>
    show registerRepeat reg m (reg hooks f) f = _
    rw [ih, hreg]
    simp [List.replicate_succ]

/-- C10: the hook registries never deduplicate: registering the same hook
`n` times through `on_startup` (or `on_shutdown`) yields a registry of
`n` identical entries, and the corresponding runner then invokes that
hook exactly `n` times, once per registration, in registration order. -/
theorem hooks_no_dedup_c10 (f : Hook) (n : Nat) :
    registerRepeat on_startup n [] f = List.replicate n f ∧
    registerRepeat on_shutdown n [] f = List.replicate n f ∧
    invokedNames (run_startup_hooks (registerRepeat on_startup n [] f)) =
      List.replicate n f.name ∧
    invokedNames (run_shutdown_hooks (registerRepeat on_shutdown n [] f)) =
      List.replicate n f.name := by
  have h1 := registerRepeat_append on_startup (fun hs g => rfl) n [] f
  have h2 := registerRepeat_append on_shutdown (fun hs g => rfl) n [] f
  simp only [List.nil_append] at h1 h2
  refine ⟨h1, h2, ?_, ?_⟩
  · rw [h1, run_startup_hooks_names, List.map_replicate]
  · rw [h2, run_shutdown_hooks_names, List.map_replicate]

lemma hash_password_ne_plain (password : String) : hash_password password ≠ password := by
  intro h
  have hlen := congrArg String.length h
  rw [hash_password, String.length_append] at hlen
  have h14 : ("pbkdf2-sha256$" : String).length = 14 := rfl
  omega

lemma admin_add_fresh (db : List User) (email password : String)
    (h : ∀ u ∈ db, u.email ≠ email) :
    admin_add db email password = db ++ [⟨email, hash_password password, true⟩] := by
  induction db with
  | nil => rfl
  | cons u rest ih =>
    have hu : (u.email == email) = false := by
      simpa using h u (List.mem_cons_self u rest)
    simp only [admin_add, hu, Bool.false_eq_true, if_false, List.cons_append,
      List.cons.injEq, true_and]
    exact ih fun v hv => h v (List.mem_cons_of_mem u hv)

lemma admin_add_found (db : List User) (email password : String) (u₀ : User)
    (h : db.find? (fun u => u.email == email) = some u₀) :
    (admin_add db email password).length = db.length ∧
    (∃ u, u ∈ admin_add db email password ∧ u.email = email ∧
      u.password_hash = hash_password password ∧ u.is_admin = true) ∧
    List.countP (fun u => u.email == email) (admin_add db email password) =
      List.countP (fun u => u.email == email) db := by
  induction db with
  | nil => simp [List.find?] at h
  | cons u rest ih =>
    by_cases hu : (u.email == email) = true
    · have hemail : u.email = email := by simpa using hu
      refine ⟨by simp [admin_add, hu], ?_, ?_⟩
      · exact ⟨{ u with password_hash := hash_password password, is_admin := true },
          by simp [admin_add, hu], hemail, rfl, rfl⟩
      · simp [admin_add, hu, List.countP_cons, hemail]
    · have hu' : (u.email == email) = false := by simpa using hu
      have hfind : rest.find? (fun v => v.email == email) = some u₀ := by
        rw [List.find?_cons_of_neg] at h
        · exact h
        · simp [hu']
      obtain ⟨hl, ⟨w, hw, he, hh, ha⟩, hc⟩ := ih hfind
      refine ⟨by simp [admin_add, hu', hl], ⟨w, ?_, he, hh, ha⟩, ?_⟩
      · simp only [admin_add, hu', Bool.false_eq_true, if_false]
        exact List.mem_cons_of_mem u hw
      · simp [admin_add, hu', List.countP_cons, hc]

/-- C3: on a database with no row for the email, `admin add` appends
exactly one `User` row with `is_admin = true` whose stored hash differs
from the plaintext password; on a database where the email is found,
it rewrites that row's hash and admin flag in place: the table keeps its
length, keeps its number of rows for that email, and afterwards contains
a row for the email carrying the fresh hash and `is_admin = true`. -/
theorem admin_add_create_update_c3 (db₁ db₂ : List User)
    (email₁ email₂ password : String) (u₀ : User)
    (hfresh : ∀ u ∈ db₁, u.email ≠ email₁)
    (hfound : db₂.find? (fun u => u.email == email₂) = some u₀) :
    admin_add db₁ email₁ password = db₁ ++ [⟨email₁, hash_password password, true⟩] ∧
    hash_password password ≠ password ∧
    (admin_add db₂ email₂ password).length = db₂.length ∧
    (∃ u, u ∈ admin_add db₂ email₂ password ∧ u.email = email₂ ∧
      u.password_hash = hash_password password ∧ u.is_admin = true) ∧
    List.countP (fun u => u.email == email₂) (admin_add db₂ email₂ password) =
      List.countP (fun u => u.email == email₂) db₂ := by
  obtain ⟨hl, hex, hc⟩ := admin_add_found db₂ email₂ password u₀ hfound
  exact ⟨admin_add_fresh db₁ email₁ password hfresh, hash_password_ne_plain password,
    hl, hex, hc⟩

theorem admin_add_create_update_c3_witness :
    (∀ u ∈ ([⟨"user@example.com", "x", false⟩] : List User), u.email ≠ "root@example.com") ∧
    ([(⟨"admin@example.com", "oldhash", false⟩ : User)].find?
        (fun u => u.email == "admin@example.com") =
      some ⟨"admin@example.com", "oldhash", false⟩) ∧
    (admin_add [⟨"user@example.com", "x", false⟩] "root@example.com" "s3cret" =
      [⟨"user@example.com", "x", false⟩] ++
        [⟨"root@example.com", hash_password "s3cret", true⟩] ∧
    hash_password "s3cret" ≠ "s3cret" ∧
    (admin_add [⟨"admin@example.com", "oldhash", false⟩] "admin@example.com" "s3cret").length =
      ([(⟨"admin@example.com", "oldhash", false⟩ : User)]).length ∧
    (∃ u, u ∈ admin_add [⟨"admin@example.com", "oldhash", false⟩] "admin@example.com" "s3cret" ∧
      u.email = "admin@example.com" ∧
      u.password_hash = hash_password "s3cret" ∧ u.is_admin = true) ∧
    List.countP (fun u => u.email == "admin@example.com")
        (admin_add [⟨"admin@example.com", "oldhash", false⟩] "admin@example.com" "s3cret") =
      List.countP (fun u => u.email == "admin@example.com")
        [(⟨"admin@example.com", "oldhash", false⟩ : User)]) :=
  ⟨by decide, by decide,
   admin_add_create_update_c3
     [⟨"user@example.com", "x", false⟩]
     [⟨"admin@example.com", "oldhash", false⟩]
     "root@example.com" "admin@example.com" "s3cret"
     ⟨"admin@example.com", "oldhash", false⟩
     (by decide) (by decide)⟩

/-- C5: `extensions enable` on an extension whose record is already
enabled only reports "already enabled" and returns: the table is the very
same value, so every field of the record — `updated_at` included — is
unchanged; `extensions disable` on an already-disabled record behaves
symmetrically. -/
theorem extensions_noop_toggle_c5 (db₁ db₂ : List Extension) (name₁ name₂ : String)
    (now₁ now₂ : Nat) (e₁ e₂ : Extension)
    (hf₁ : db₁.find? (fun e => e.name == name₁) = some e₁)
    (he₁ : e₁.is_enabled = true)
    (hf₂ : db₂.find? (fun e => e.name == name₂) = some e₂)
    (he₂ : e₂.is_enabled = false) :
    extensions_enable db₁ name₁ now₁ =
      ⟨db₁, 0, ["Extension \x27" ++ name₁ ++ "\x27 is already enabled."]⟩ ∧
    extensions_disable db₂ name₂ now₂ =
      ⟨db₂, 0, ["Extension \x27" ++ name₂ ++ "\x27 is already disabled."]⟩ := by
  constructor
  · simp [extensions_enable, hf₁, he₁]
  · simp [extensions_disable, hf₂, he₂]

theorem extensions_noop_toggle_c5_witness :
    ([(⟨"analytics", "1.0.0", "", "", "https://github.com/u/analytics", true, 5, 7⟩ :
        Extension)].find? (fun e => e.name == "analytics") =
      some ⟨"analytics", "1.0.0", "", "", "https://github.com/u/analytics", true, 5, 7⟩) ∧
    (⟨"analytics", "1.0.0", "", "", "https://github.com/u/analytics", true, 5, 7⟩ :
      Extension).is_enabled = true ∧
    ([(⟨"mailer", "2.0.0", "", "", "https://github.com/u/mailer", false, 3, 4⟩ :
        Extension)].find? (fun e => e.name == "mailer") =
      some ⟨"mailer", "2.0.0", "", "", "https://github.com/u/mailer", false, 3, 4⟩) ∧
    (⟨"mailer", "2.0.0", "", "", "https://github.com/u/mailer", false, 3, 4⟩ :
      Extension).is_enabled = false ∧
    (extensions_enable
        [⟨"analytics", "1.0.0", "", "", "https://github.com/u/analytics", true, 5, 7⟩]
        "analytics" 99 =
      ⟨[⟨"analytics", "1.0.0", "", "", "https://github.com/u/analytics", true, 5, 7⟩], 0,
        ["Extension \x27" ++ "analytics" ++ "\x27 is already enabled."]⟩ ∧
    extensions_disable
        [⟨"mailer", "2.0.0", "", "", "https://github.com/u/mailer", false, 3, 4⟩]
        "mailer" 99 =
      ⟨[⟨"mailer", "2.0.0", "", "", "https://github.com/u/mailer", false, 3, 4⟩], 0,
        ["Extension \x27" ++ "mailer" ++ "\x27 is already disabled."]⟩) :=
  ⟨by decide, by decide, by decide, by decide,
   extensions_noop_toggle_c5
     [⟨"analytics", "1.0.0", "", "", "https://github.com/u/analytics", true, 5, 7⟩]
     [⟨"mailer", "2.0.0", "", "", "https://github.com/u/mailer", false, 3, 4⟩]
     "analytics" "mailer" 99 99
     ⟨"analytics", "1.0.0", "", "", "https://github.com/u/analytics", true, 5, 7⟩
     ⟨"mailer", "2.0.0", "", "", "https://github.com/u/mailer", false, 3, 4⟩
     (by decide) (by decide) (by decide) (by decide)⟩

lemma any_name_eq_false_of_find?_eq_none (db : List Extension) (name : String)
    (hnone : db.find? (fun e => e.name == name) = none) :
    db.any (fun e => e.name == name) = false := by
  induction db with
  | nil => rfl
  | cons e rest ih =>
    rw [List.find?_cons] at hnone
    by_cases he : (e.name == name) = true
    · simp [he] at hnone
    · have he' : (e.name == name) = false := by simpa using he
      rw [he'] at hnone
      simp only [List.any_cons, he', Bool.false_or]
      exact ih hnone

/-- C6: on a name with no matching `Extension` record, `extensions
enable`, `extensions disable` and `extensions uninstall` print a
not-found error and exit with code 1, leaving the table unchanged; the
not-found condition in uninstall reaches the CLI as `uninstall_extension`
returning the boolean `false` (the function is total, so it signals
not-found by its result, not by raising).  The uninstall command is
covered both with `--yes` and with an accepted confirmation prompt. -/
theorem extensions_not_found_c6 (db : List Extension) (name : String) (now : Nat)
    (hnone : db.find? (fun e => e.name == name) = none) :
    extensions_enable db name now =
      ⟨db, 1, ["Error: Extension \x27" ++ name ++ "\x27 not found."]⟩ ∧
    extensions_disable db name now =
      ⟨db, 1, ["Error: Extension \x27" ++ name ++ "\x27 not found."]⟩ ∧
    uninstall_extension db name = (db, false) ∧
    extensions_uninstall db name true true =
      ⟨db, 1, ["Error: Extension \x27" ++ name ++ "\x27 not found."]⟩ ∧
    extensions_uninstall db name false true =
      ⟨db, 1, ["Error: Extension \x27" ++ name ++ "\x27 not found."]⟩ := by
  have hany := any_name_eq_false_of_find?_eq_none db name hnone
  refine ⟨by simp [extensions_enable, hnone], by simp [extensions_disable, hnone],
    by simp [uninstall_extension, hany], ?_, ?_⟩
  · simp [extensions_uninstall, uninstall_extension, hany]
  · simp [extensions_uninstall, uninstall_extension, hany]

theorem extensions_not_found_c6_witness :
    ([(⟨"analytics", "1.0.0", "", "", "https://github.com/u/analytics", true, 5, 7⟩ :
        Extension)].find? (fun e => e.name == "ghost") = none) ∧
    (extensions_enable
        [⟨"analytics", "1.0.0", "", "", "https://github.com/u/analytics", true, 5, 7⟩]
        "ghost" 99 =
      ⟨[⟨"analytics", "1.0.0", "", "", "https://github.com/u/analytics", true, 5, 7⟩], 1,
        ["Error: Extension \x27" ++ "ghost" ++ "\x27 not found."]⟩ ∧
    extensions_disable
        [⟨"analytics", "1.0.0", "", "", "https://github.com/u/analytics", true, 5, 7⟩]
        "ghost" 99 =
      ⟨[⟨"analytics", "1.0.0", "", "", "https://github.com/u/analytics", true, 5, 7⟩], 1,
        ["Error: Extension \x27" ++ "ghost" ++ "\x27 not found."]⟩ ∧
    uninstall_extension
        [⟨"analytics", "1.0.0", "", "", "https://github.com/u/analytics", true, 5, 7⟩]
        "ghost" =
      ([⟨"analytics", "1.0.0", "", "", "https://github.com/u/analytics", true, 5, 7⟩], false) ∧
    extensions_uninstall
        [⟨"analytics", "1.0.0", "", "", "https://github.com/u/analytics", true, 5, 7⟩]
        "ghost" true true =
      ⟨[⟨"analytics", "1.0.0", "", "", "https://github.com/u/analytics", true, 5, 7⟩], 1,
        ["Error: Extension \x27" ++ "ghost" ++ "\x27 not found."]⟩ ∧
    extensions_uninstall
        [⟨"analytics", "1.0.0", "", "", "https://github.com/u/analytics", true, 5, 7⟩]
        "ghost" false true =
      ⟨[⟨"analytics", "1.0.0", "", "", "https://github.com/u/analytics", true, 5, 7⟩], 1,
        ["Error: Extension \x27" ++ "ghost" ++ "\x27 not found."]⟩) :=
  ⟨by decide,
   extensions_not_found_c6
     [⟨"analytics", "1.0.0", "", "", "https://github.com/u/analytics", true, 5, 7⟩]
     "ghost" 99 (by decide)⟩
